import Mathlib

/-!
Verification of the xcom Paxos core
(plugin/group_replication/libmysqlgcs/src/bindings/xcom/xcom/xcom_base.cc).

The definitions below are a shallow embedding of the C source.  Pure helper
functions become Lean functions; functions that mutate a `pax_machine` become
functions from the machine state to the machine state (plus the produced
reply, when there is one).  Globals that a function reads (the current site
definition, the forced configuration, the current time `task_now()`) become
explicit arguments.  Machine integers are modelled as `Nat`/`Int`, with an
explicit `% 2^64` where the C source computes on `uint64_t` and wrap-around
is representable.  C doubles are modelled as exact rationals.
-/

namespace Xcom

/-- Structured sequence number (`synode_no`): `{group_id, msgno, node}`. -/
structure SynodeNo where
  group_id : Nat
  msgno : Nat
  node : Nat
deriving DecidableEq

/-- Ballot `{cnt : i32, node : u16}`. -/
structure Ballot where
  cnt : Int
  node : Nat
deriving DecidableEq

/-- Modelled from the spec: synods are ordered lexicographically on
`(msgno, node)` (`synode_lt` lives in synode.cc, which is not under src/). -/
def synode_lt (a b : SynodeNo) : Bool :=
  decide (a.msgno < b.msgno) || (decide (a.msgno = b.msgno) && decide (a.node < b.node))

/-- Modelled from the spec: strict "greater" on synods, lexicographic on
`(msgno, node)` (source outside src/). -/
def synode_gt (a b : SynodeNo) : Bool := synode_lt b a

/-- Spec-level non-strict order on synods, used to state theorems about
`>=` comparisons that the source writes as a negated `synode_lt`. -/
def synode_le (a b : SynodeNo) : Prop :=
  a.msgno < b.msgno ∨ (a.msgno = b.msgno ∧ a.node ≤ b.node)

/-- Modelled from the spec: ballots are ordered lexicographically on
`(cnt, node)`; `gt_ballot a b` holds when `a` is strictly greater
(`gt_ballot` lives outside src/). -/
def gt_ballot (a b : Ballot) : Bool :=
  decide (b.cnt < a.cnt) || (decide (a.cnt = b.cnt) && decide (b.node < a.node))

/-- Modelled from the spec: ballot equality (source outside src/). -/
def eq_ballot (a b : Ballot) : Bool := decide (a = b)

/-- Spec-level non-strict ballot order, for monotonicity statements. -/
def ballot_le (a b : Ballot) : Prop :=
  a.cnt < b.cnt ∨ (a.cnt = b.cnt ∧ a.node ≤ b.node)

theorem ballot_le_refl (a : Ballot) : ballot_le a a := by
  right; exact ⟨rfl, le_refl _⟩

theorem gt_ballot_imp_le (a b : Ballot) (h : gt_ballot a b = true) : ballot_le b a := by
  unfold gt_ballot at h
  unfold ballot_le
  simp only [Bool.or_eq_true, Bool.and_eq_true, decide_eq_true_eq] at h
  rcases h with h | ⟨h1, h2⟩
  · left; exact h
  · right; exact ⟨h1.symm, Nat.le_of_lt h2⟩

/-- Paxos message operation codes (`pax_op`). -/
inductive PaxOp where
  | initial_op
  | prepare_op
  | ack_prepare_op
  | ack_prepare_empty_op
  | accept_op
  | ack_accept_op
  | multi_ack_accept_op
  | learn_op
  | tiny_learn_op
  | recover_learn_op
  | skip_op
  | read_op
  | client_msg
  | die_op
deriving DecidableEq

export PaxOp (initial_op prepare_op ack_prepare_op ack_prepare_empty_op accept_op
  ack_accept_op multi_ack_accept_op learn_op tiny_learn_op recover_learn_op skip_op
  read_op client_msg die_op)

/-- Message payload type (`pax_msg_type`). -/
inductive MsgType where
  | normal
  | no_op
deriving DecidableEq

export MsgType (normal no_op)

/-- Consensus requirement carried by client payloads (`cons_type`). -/
inductive Consensus where
  | cons_majority
  | cons_all
deriving DecidableEq

export Consensus (cons_majority cons_all)

/-- Cargo types of payloads (`cargo_type`), restricted to the ones the
embedded functions inspect. -/
inductive CargoType where
  | app_type
  | unified_boot_type
  | add_node_type
  | remove_node_type
  | set_event_horizon_type
  | force_config_type
  | view_msg
  | xcom_boot_type
deriving DecidableEq

export CargoType (app_type unified_boot_type add_node_type remove_node_type
  set_event_horizon_type force_config_type view_msg xcom_boot_type)

/-- Client payload (`app_data`), restricted to the fields the embedded
functions inspect.  For configuration commands, `nodes` is the node list of
`body.app_u_u.nodes`, with node addresses as abstract ids. -/
structure AppData where
  group_id : Nat
  c_t : CargoType
  consensus : Consensus
  chosen : Bool
  nodes : List Nat
  app_key : SynodeNo
deriving DecidableEq

/-- Wire/protocol message (`pax_msg`), restricted to the fields the embedded
functions inspect.  `from_node` is `none` when the C field `from` is
`VOID_NODE_NO`. -/
structure PaxMsg where
  from_node : Option Nat
  op : PaxOp
  synode : SynodeNo
  proposal : Ballot
  reply_to : Ballot
  msg_type : MsgType
  a : Option AppData
  force_delivery : Bool
deriving DecidableEq

/-- Acceptor state of a Paxos machine. -/
structure Acceptor where
  promise : Ballot
  msg : Option PaxMsg
deriving DecidableEq

/-- Proposer state of a Paxos machine.  The node-set bitfields are modelled
as the sets of node indices whose bit is set. -/
structure Proposer where
  bal : Ballot
  msg : Option PaxMsg
  prep_nodeset : Finset Nat
  prop_nodeset : Finset Nat
  sent_prop : Ballot
  sent_learn : Ballot
deriving DecidableEq

/-- Learner state of a Paxos machine. -/
structure Learner where
  msg : Option PaxMsg
deriving DecidableEq

/-- Per-synod Paxos state machine (`pax_machine`), restricted to the fields
the embedded functions inspect. -/
structure PaxMachine where
  synode : SynodeNo
  acceptor : Acceptor
  proposer : Proposer
  learner : Learner
  op : PaxOp
  force_delivery : Bool
  enforcer : Bool
  last_modified : ℚ
deriving DecidableEq

/-- Membership snapshot (`site_def`), restricted to the fields the embedded
functions inspect.  `nodes` lists the member addresses (as abstract ids);
`nodeno` is `none` when the C field is `VOID_NODE_NO`. -/
structure SiteDef where
  start : SynodeNo
  boot_key : SynodeNo
  nodeno : Option Nat
  nodes : List Nat
  event_horizon : Nat
deriving DecidableEq

/-- Source `get_maxnodes`: number of members of a site. -/
def get_maxnodes (s : SiteDef) : Nat := s.nodes.length

/-- Source `get_nodeno`: the index of this node in the site (`none` = `VOID_NODE_NO`). -/
def get_nodeno (s : SiteDef) : Option Nat := s.nodeno

/-- Source `finished`: the machine has learned a value. -/
def finished (p : PaxMachine) : Bool :=
  match p.learner.msg with
  | some m => decide (m.op = learn_op) || decide (m.op = tiny_learn_op)
  | none => false

/-- Source `accepted`: the acceptor holds a real (non-initial) proposal. -/
def accepted (p : PaxMachine) : Bool :=
  match p.acceptor.msg with
  | some m => decide (m.op ≠ initial_op)
  | none => false

/-- Source `accepted_noop`: the accepted proposal is a `no_op`. -/
def accepted_noop (p : PaxMachine) : Bool :=
  accepted p &&
    (match p.acceptor.msg with
     | some m => decide (m.msg_type = no_op)
     | none => false)

/-- Source `noop_match`: the incoming message is a `no_op` and the acceptor already
accepted a `no_op`. -/
def noop_match (p : PaxMachine) (pm : PaxMsg) : Bool :=
  decide (pm.msg_type = no_op) && accepted_noop p

/-- Source `set_learn_type`: brand a message as a full learn. -/
def set_learn_type (m : PaxMsg) : PaxMsg :=
  {m with op := learn_op, msg_type := if m.a.isSome then normal else no_op}

/-- Source `create_learn_msg_for_ignorant_node`: reply teaching the sender the
learned value.  The source clones `pm`, then overwrites synode, proposal,
payload type and payload from `learner.msg` and brands it a learn message.
Only called when the machine is finished, so `learner.msg` is set; the
`none` branch is dead. -/
def create_learn_msg_for_ignorant_node (p : PaxMachine) (pm : PaxMsg)
    (synode : SynodeNo) : PaxMsg :=
  match p.learner.msg with
  | some lm =>
      set_learn_type
        {pm with synode := synode, proposal := lm.proposal, msg_type := lm.msg_type,
                 a := lm.a}
  | none => pm

/-- Source `create_ack_prepare_msg`: phase-1 reply; carries the accepted
`(ballot, value)` when one exists, else `ack_prepare_empty_op`. -/
def create_ack_prepare_msg (p : PaxMachine) (pm : PaxMsg)
    (synode : SynodeNo) : PaxMsg :=
  let reply := {pm with synode := synode}
  match p.acceptor.msg with
  | some am =>
      if am.op ≠ initial_op then
        {reply with proposal := am.proposal, msg_type := am.msg_type,
                    op := ack_prepare_op, a := am.a}
      else {reply with op := ack_prepare_empty_op}
  | none => {reply with op := ack_prepare_empty_op}

/-- Source `handle_simple_prepare`: Paxos acceptor phase-1 decision.  `now` stands
for `task_now()`.  Returns the updated machine and the reply, if any. -/
def handle_simple_prepare (now : ℚ) (p : PaxMachine) (pm : PaxMsg)
    (synode : SynodeNo) : PaxMachine × Option PaxMsg :=
  if finished p then (p, some (create_learn_msg_for_ignorant_node p pm synode))
  else
    let greater := gt_ballot pm.proposal p.acceptor.promise
    if greater || noop_match p pm then
      let p1 := {p with last_modified := now}
      let p2 :=
        if greater then {p1 with acceptor := {p1.acceptor with promise := pm.proposal}}
        else p1
      (p2, some (create_ack_prepare_msg p2 pm synode))
    else (p, none)

/-- Source `create_ack_accept_msg`: phase-2 reply. -/
def create_ack_accept_msg (m : PaxMsg) (synode : SynodeNo)
    (skip_flag : Bool) : PaxMsg :=
  {m with op := if skip_flag then multi_ack_accept_op else ack_accept_op,
          synode := synode}

/-- Source `handle_simple_accept`: Paxos acceptor phase-2 decision. -/
def handle_simple_accept (now : ℚ) (p : PaxMachine) (m : PaxMsg)
    (synode : SynodeNo) (skip_flag : Bool) : PaxMachine × Option PaxMsg :=
  if finished p then (p, some (create_learn_msg_for_ignorant_node p m synode))
  else if !gt_ballot p.acceptor.promise m.proposal || noop_match p m then
    let p1 := {p with last_modified := now,
                      acceptor := {p.acceptor with msg := some m}}
    (p1, some (create_ack_accept_msg m synode skip_flag))
  else (p, none)

/-- Source `do_learn`: record the chosen value in both the acceptor and the learner.
The source stores the same message object in both slots; the cache-accounting
calls (`add_cache_size`, `shrink_cache`) do not touch the machine fields
modelled here. -/
def do_learn (p : PaxMachine) (m : PaxMsg) : PaxMachine :=
  let m1 := {m with a := m.a.map (fun ad => {ad with chosen := true})}
  {p with acceptor := {p.acceptor with msg := some m1},
          learner := {p.learner with msg := some m1}}

/-- Source `handle_learn`: learn a value unless already finished.  `last_modified`
is updated unconditionally, as in the source.  The global side effects of the
not-finished branch (sweeper activation, FSM events, forced-config install)
live outside the machine state modelled here. -/
def handle_learn (now : ℚ) (p : PaxMachine) (m : PaxMsg) : PaxMachine :=
  let p1 := {p with last_modified := now}
  if !finished p1 then do_learn p1 m else p1

/-- Source `skip_value`: turn a message into a learned `no_op`. -/
def skip_value (m : PaxMsg) : PaxMsg := {m with op := learn_op, msg_type := no_op}

/-- Source `handle_skip`: learn a `no_op` unless already finished. -/
def handle_skip (now : ℚ) (p : PaxMachine) (m : PaxMsg) : PaxMachine :=
  if !finished p then
    do_learn {p with last_modified := now} (skip_value m)
  else p

/-- Source `handle_tiny_learn`: on a ballot match, promote the accepted message to a
learn and run `handle_learn`; otherwise the source only emits a `read_op`
(`send_read`), which leaves the machine untouched. -/
def handle_tiny_learn (now : ℚ) (p : PaxMachine) (m : PaxMsg) : PaxMachine :=
  match p.acceptor.msg with
  | some am =>
      if eq_ballot am.proposal m.proposal then
        let am1 := {am with op := learn_op}
        let p1 := {p with acceptor := {p.acceptor with msg := some am1},
                          last_modified := now}
        handle_learn now p1 am1
      else p
  | none => p

/-- Source `max_check`: upper bound used when counting answers (= `get_maxnodes`). -/
def max_check (site : SiteDef) : Nat := get_maxnodes site

/-- Source `majority`: count the answered nodes below `max_check s` and apply the
force / cons_all / simple-majority rule.  The global `forced_config` becomes
the explicit argument `forced_config`; `delay` is unused in the source
(`[[maybe_unused]]`). -/
def majority (nodeset : Finset Nat) (s : SiteDef) (all : Bool)
    (delay : Bool) (force : Bool) (forced_config : SiteDef) : Bool :=
  let _ := delay
  let max := max_check s
  let ok := ((Finset.range max).filter (fun i => i ∈ nodeset)).card
  if force then decide (ok = get_maxnodes forced_config)
  else if all then decide (ok = max) else decide (ok > max / 2)

/-- Source `IS_CONS_ALL`: the proposer payload asks for unanimity.  The source
dereferences `proposer.msg` unconditionally (it is asserted non-null). -/
def IS_CONS_ALL (p : PaxMachine) : Bool :=
  match p.proposer.msg with
  | some m =>
      match m.a with
      | some a => decide (a.consensus = cons_all)
      | none => false
  | none => false

/-- Source `prep_majority`: a majority of acceptors answered our prepare. -/
def prep_majority (forced_config : SiteDef) (site : SiteDef)
    (p : PaxMachine) : Bool :=
  majority p.proposer.prep_nodeset site (IS_CONS_ALL p)
    (decide (p.proposer.bal.cnt = 1))
    ((match p.proposer.msg with
      | some m => m.force_delivery
      | none => false) || p.force_delivery)
    forced_config

/-- Source `brand_app_data`: stamp the payload with the synode of the
message as application key, and with its group id. -/
def brand_app_data (p : PaxMsg) : PaxMsg :=
  match p.a with
  | some a =>
      {p with a := some {a with app_key := p.synode,
                                group_id := p.synode.group_id}}
  | none => p

/-- Source `init_propose_msg`: turn the proposer message into a phase-2
accept request replying to its own proposal, and brand its payload. -/
def init_propose_msg (m : PaxMsg) : PaxMsg :=
  brand_app_data {m with op := accept_op, reply_to := m.proposal}

/-- Source `check_propose`: on a phase-1 majority, prepare the phase-2 message.
The source asserts `proposer.msg` non-null; the `none` branch is dead. -/
def check_propose (forced_config : SiteDef) (site : SiteDef)
    (p : PaxMachine) : PaxMachine × Bool :=
  if prep_majority forced_config site p then
    match p.proposer.msg with
    | some msg =>
        let msg1 := init_propose_msg
          {msg with proposal := p.proposer.bal, synode := p.synode}
        let pr := {p.proposer with msg := some msg1, prop_nodeset := ∅,
                                   sent_prop := p.proposer.bal}
        ({p with proposer := pr}, true)
    | none => (p, true)
  else (p, false)

/-- Source `handle_simple_ack_prepare`: record the phase-1 answer, adopt a higher
already-accepted value, and decide whether to issue phase 2. -/
def handle_simple_ack_prepare (forced_config : SiteDef) (site : SiteDef)
    (p : PaxMachine) (m : PaxMsg) : PaxMachine × Bool :=
  let p1 :=
    if (get_nodeno site).isSome then
      match m.from_node with
      | some f =>
          {p with proposer := {p.proposer with
            prep_nodeset := insert f p.proposer.prep_nodeset}}
      | none => p
    else p
  let p2 :=
    if m.op = ack_prepare_op &&
        (match p1.proposer.msg with
         | some pmsg => gt_ballot m.proposal pmsg.proposal
         | none => false) then
      {p1 with proposer := {p1.proposer with msg := some m}}
    else p1
  if gt_ballot m.reply_to p2.proposer.sent_prop then
    check_propose forced_config site p2
  else (p2, false)

/-- Source `handle_ack_prepare`: ignore answers once finished or that do not reply
to the current ballot; otherwise run `handle_simple_ack_prepare` (the send of
the resulting propose message happens outside the machine state). -/
def handle_ack_prepare (forced_config : SiteDef) (site : SiteDef)
    (p : PaxMachine) (m : PaxMsg) : PaxMachine × Bool :=
  if finished p then (p, false)
  else if m.from_node ≠ none && eq_ballot p.proposer.bal m.reply_to then
    handle_simple_ack_prepare forced_config site p m
  else (p, false)

/-! ### Event horizon and `too_far` -/

/-- Modelled from the spec: the default (minimum) event horizon.  The spec
only fixes that `H` defaults to `MIN`; the concrete constant lives in
xcom_base.h, outside src/. -/
def EVENT_HORIZON_MIN : Nat := 10

/-- Source `too_far_threshold`: `executed_msg.msgno + active_event_horizon` on
`uint64_t`. -/
def too_far_threshold (executed_msgno : Nat) (active_event_horizon : Nat) : Nat :=
  (executed_msgno + active_event_horizon) % 2 ^ 64

/-- Source `too_far_threshold_new_event_horizon_pending`: minimum of the normal
threshold and `start(R) - 1 + event_horizon(R)`, both on `uint64_t`. -/
def too_far_threshold_new_event_horizon_pending (executed_msgno : Nat)
    (active_config : SiteDef) (new_config : SiteDef) : Nat :=
  let possibly_loose_threshold :=
    (executed_msgno + active_config.event_horizon) % 2 ^ 64
  let maximum_safe_threshold :=
    (new_config.start.msgno + (2 ^ 64 - 1) + new_config.event_horizon) % 2 ^ 64
  min possibly_loose_threshold maximum_safe_threshold

/-- Source `too_far`: drop synods at or beyond the threshold.  The site-history
lookups become arguments: `active_config` is `find_site_def(executed_msg)`,
`pending_config` is `first_event_horizon_reconfig()` and `is_latest` tells
whether the active config is the latest installed one.  A pending
event-horizon reconfiguration starts strictly after the active config, so
`pending_config ≠ none` entails `is_latest = false` in the program. -/
def too_far (executed_msgno : Nat) (active_config : Option SiteDef)
    (is_latest : Bool) (pending_config : Option SiteDef)
    (s : SynodeNo) : Bool :=
  let threshold :=
    match active_config with
    | some ac =>
        match pending_config, is_latest with
        | none, _ => too_far_threshold executed_msgno ac.event_horizon
        | some _, true => too_far_threshold executed_msgno ac.event_horizon
        | some pc, false =>
            too_far_threshold_new_event_horizon_pending executed_msgno ac pc
    | none => too_far_threshold executed_msgno EVENT_HORIZON_MIN
  decide (s.msgno ≥ threshold)

/-! ### Executor exit logic -/

/-- Source `is_member`: the local node belongs to the site. -/
def is_member (site : SiteDef) : Bool := (site.nodeno).isSome

/-- Source `is_empty_site`: the site has no members. -/
def is_empty_site (s : SiteDef) : Bool := decide (s.nodes.length = 0)

/-- Source `compute_delay`: `start.msgno += event_horizon` on `uint64_t`. -/
def compute_delay (start : SynodeNo) (event_horizon : Nat) : SynodeNo :=
  {start with msgno := (start.msgno + event_horizon) % 2 ^ 64}

/-- Source `incr_msgno`: next message number; the node index is refreshed from the
site valid at the new synod, which becomes the argument `nodeno_at`. -/
def incr_msgno (nodeno_at : SynodeNo → Nat) (s : SynodeNo) : SynodeNo :=
  let ret := {s with msgno := (s.msgno + 1) % 2 ^ 64}
  {ret with node := nodeno_at ret}

/-- Source `incr_synode`: next synod; wraps the node index at `get_maxnodes` of the
site valid at `s`, which becomes the argument `maxnodes_at`. -/
def incr_synode (maxnodes_at : SynodeNo → Nat) (s : SynodeNo) : SynodeNo :=
  let ret := {s with node := s.node + 1}
  if ret.node ≥ maxnodes_at s then
    {ret with node := 0, msgno := (ret.msgno + 1) % 2 ^ 64}
  else ret

/-- Source `delay_fifo`: FIFO of synods at which queued deliveries or "inform the
removed nodes" actions become due.  `q` maps slot index to entry. -/
structure DelayFifo where
  n : Nat
  front : Nat
  rear : Nat
  q : Fin 1000 → SynodeNo

/-- Source `FIFO_SIZE`. -/
def FIFO_SIZE : Nat := 1000

/-- Source `addone`: advance a FIFO index modulo `FIFO_SIZE`. -/
def addone (i : Nat) : Nat := (i + 1) % FIFO_SIZE

/-- Source `fifo_empty`. -/
def fifo_empty (f : DelayFifo) : Bool := decide (f.n ≤ 0)

/-- Source `fifo_full`. -/
def fifo_full (f : DelayFifo) : Bool := decide (f.n ≥ FIFO_SIZE)

/-- Source `fifo_insert`: append at `rear` unless the FIFO is full; a full FIFO is
left untouched and no error is signalled. -/
def fifo_insert (s : SynodeNo) (f : DelayFifo) : DelayFifo :=
  if !fifo_full f then
    {f with n := f.n + 1,
            q := fun i => if i.val = f.rear % 1000 then s else f.q i,
            rear := addone f.rear}
  else f

/-- Synod with all fields zero (`null_synode`). -/
def null_synode : SynodeNo := ⟨0, 0, 0⟩

/-- Source `fifo_extract`: pop the front entry, or `null_synode` when empty. -/
def fifo_extract (f : DelayFifo) : DelayFifo × SynodeNo :=
  if !fifo_empty f then
    ({f with front := addone f.front, n := f.n - 1},
     if h : f.front % 1000 < 1000 then f.q ⟨f.front % 1000, h⟩ else null_synode)
  else (f, null_synode)

/-- State touched by `setup_exit_handling` and `x_check_exit`: the
`execute_context` fields plus the globals it updates. -/
structure ExecState where
  exit_synode : SynodeNo
  delivery_limit : SynodeNo
  exit_flag : Bool
  inform_index : Int
  site : SiteDef
  max_synode : SynodeNo
  fifo : DelayFifo

/-- Common tail of `setup_exit_handling`: keep `max_synode` above the
delivery trigger, queue it in the FIFO and count the pending inform. -/
def setup_exit_tail (nodeno_at : SynodeNo → Nat) (st : ExecState)
    (delay_until : SynodeNo) : ExecState :=
  let st1 :=
    if synode_gt delay_until st.max_synode then
      {st with max_synode := incr_msgno nodeno_at delay_until}
    else st
  {st1 with fifo := fifo_insert delay_until st1.fifo,
            inform_index := st1.inform_index + 1}

/-- Source `setup_exit_handling`: on learning a configuration, set the delivery
limit and exit trigger when the local node was removed, inflating the start
of an empty site by two event horizons. -/
def setup_exit_handling (nodeno_at maxnodes_at : SynodeNo → Nat)
    (st : ExecState) : ExecState :=
  if is_member st.site then
    setup_exit_tail nodeno_at st (compute_delay st.site.start st.site.event_horizon)
  else
    let st1 := {st with delivery_limit := st.site.start}
    let st2 := {st1 with
      exit_synode := compute_delay st1.site.start st1.site.event_horizon}
    let st3 :=
      if is_empty_site st2.site then
        let inflated :=
          compute_delay (compute_delay st2.site.start st2.site.event_horizon)
            st2.site.event_horizon
        {st2 with site := {st2.site with start := inflated}}
      else st2
    let st4 :=
      if !synode_lt st3.exit_synode st3.max_synode then
        {st3 with max_synode := incr_synode maxnodes_at st3.exit_synode}
      else st3
    let st5 := {st4 with exit_flag := true}
    setup_exit_tail nodeno_at st5 st5.exit_synode

/-- Source `x_check_exit`: exit once the trigger is armed and both cursors have
passed their bounds.  `executed_msg` and `delivered_msg` are globals in the
source and become arguments. -/
def x_check_exit (st : ExecState) (executed_msg delivered_msg : SynodeNo) : Bool :=
  st.exit_flag && !synode_lt executed_msg st.exit_synode &&
    !synode_lt delivered_msg st.delivery_limit

/-! ### Proposer backoff -/

/-- First leg of `wakeup_delay`: initial delay or exponential backoff. -/
def wakeup_delay_raw (max_conn_rtt old : ℚ) : ℚ :=
  if old = 0 then 1 / 1000 + max_conn_rtt else old * (7 / 5)

/-- The threshold block of `wakeup_delay`: `min(0.5, max(0.005, rtt * 10))`,
written exactly as the two comparisons of the source. -/
def wakeup_max_threshold (max_conn_rtt : ℚ) : ℚ :=
  let minimum_threshold : ℚ := 5 / 1000
  let maximum_threshold : ℚ := 1 / 2
  let candidate_threshold := max_conn_rtt * 10
  let candidate_threshold :=
    if candidate_threshold < minimum_threshold then minimum_threshold
    else candidate_threshold
  if candidate_threshold < maximum_threshold then candidate_threshold
  else maximum_threshold

/-- The `while (retval > maximum_threshold) retval /= 1.3;` loop, as a fueled
recursion.  `cap_fuel` below always provides enough fuel. -/
def cap_loop : Nat → ℚ → ℚ → ℚ
  | 0, _, r => r
  | n + 1, m, r => if m < r then cap_loop n m (r / (13 / 10)) else r

/-- Fuel that provably suffices for `cap_loop` to reach its fixpoint. -/
def cap_fuel (m r : ℚ) : Nat := (⌈10 * r / (3 * m)⌉).toNat + 1

/-- Source `wakeup_delay`: proposer wait with exponential backoff, capped by
repeated division.  `site->max_conn_rtt` becomes the argument. -/
def wakeup_delay (max_conn_rtt old : ℚ) : ℚ :=
  let retval := wakeup_delay_raw max_conn_rtt old
  let m := wakeup_max_threshold max_conn_rtt
  cap_loop (cap_fuel m retval) m retval

/-- One iteration of the push-wait loop of `proposer_task`, restricted to the
state the claim is about: the backoff delay and whether phase 1 is resent
(`push_msg_3p` when 3 seconds have passed since `start_push`). -/
def proposer_wait_step (is_finished : Bool) (max_conn_rtt delay start_push now : ℚ) :
    ℚ × ℚ × Bool :=
  let delay1 := wakeup_delay max_conn_rtt delay
  if is_finished then (delay1, start_push, false)
  else if start_push + 3 ≤ now then (delay1, now, true)
  else (delay1, start_push, false)

/-! ### Force delivery -/

/-- Source `INT32_MAX`. -/
def INT32_MAX : Int := 2147483647

/-- Source `force_pax_machine`: mark a machine as force-delivered; on the forcing
node bump the proposer ballot by a large saturating delta, but never twice
for a machine already marked as enforcer. -/
def force_pax_machine (p : PaxMachine) (enforcer : Bool) : PaxMachine :=
  let p1 :=
    if !p.enforcer then
      if enforcer then
        let delta := (INT32_MAX - max p.proposer.bal.cnt 0) / 3
        {p with proposer := {p.proposer with
          bal := {p.proposer.bal with cnt := p.proposer.bal.cnt + delta}}}
      else p
    else p
  {p1 with force_delivery := true, enforcer := enforcer}

/-! ### Configuration-change validation -/

/-- Client reply codes. -/
inductive ClientReplyCode where
  | REQUEST_OK
  | REQUEST_FAIL
  | REQUEST_RETRY
deriving DecidableEq

export ClientReplyCode (REQUEST_OK REQUEST_FAIL REQUEST_RETRY)

/-- Modelled from the spec: `node_exists` (node_list code, outside src/)
tests whether an address is present in a node list. -/
def node_exists (addr : Nat) (nodes : List Nat) : Bool := decide (addr ∈ nodes)

/-- Environment read by `can_execute_cfgchange`: the globals and the
collaborator checks whose code lives outside the embedded function.
`identity` is `cfg_app_xcom_get_identity()`; `new_site_nodes` are the
members of `get_site_def()`; `valid_site_nodes` those of
`find_site_def(executed_msg)`; `eh_reject` is the verdict of
`add_node_unsafe_against_event_horizon` (protocol-version compatibility);
`ipv4_reject` the verdict of `add_node_unsafe_against_ipv4_old_nodes`;
`detector_ok` the verdict of `ask_for_detector_if_added_ok`;
`uids_present` the addresses for which `node_exists_with_uid` holds in the
current site; `eh_reconfig_rejected` the verdict of
`unsafe_event_horizon_reconfiguration`; `dead_nodes_in_new_config` the
verdict of `are_there_dead_nodes_in_new_config`. -/
structure CfgEnv where
  executed_msgno : Nat
  executed_group_id : Nat
  identity : Nat
  new_site_nodes : List Nat
  valid_site_nodes : List Nat
  eh_reject : Bool
  ipv4_reject : Bool
  detector_ok : Bool
  uids_present : List Nat
  eh_reconfig_rejected : Bool
  dead_nodes_in_new_config : Bool
deriving DecidableEq

/-- Source `add_node_adding_own_address`: the add_node request lists the local
own address of this node. -/
def add_node_adding_own_address (env : CfgEnv) (a : AppData) : Bool :=
  node_exists env.identity a.nodes

/-- Source `allow_add_node`: reject when incompatible with the event horizon, when
IPv4-only members could not talk to the new node, when a listed node is
already present in the current or active site, or when the detector still
sees an old incarnation. -/
def allow_add_node (env : CfgEnv) (a : AppData) : Bool :=
  if env.eh_reject then false
  else if env.ipv4_reject then false
  else if a.nodes.any (fun n =>
      node_exists n env.new_site_nodes || node_exists n env.valid_site_nodes) then
    false
  else if !env.detector_ok then false
  else true

/-- Source `allow_remove_node`: every target must still exist by UID. -/
def allow_remove_node (env : CfgEnv) (a : AppData) : Bool :=
  a.nodes.all (fun n => node_exists n env.uids_present)

/-- Source `can_execute_cfgchange`: validation of a client-submitted configuration
command. -/
def can_execute_cfgchange (env : CfgEnv) (a : AppData) : ClientReplyCode :=
  if env.executed_msgno ≤ 2 then
    if add_node_adding_own_address env a then REQUEST_FAIL else REQUEST_RETRY
  else if a.group_id ≠ 0 && a.group_id ≠ env.executed_group_id then REQUEST_FAIL
  else if a.c_t = add_node_type && !allow_add_node env a then REQUEST_FAIL
  else if a.c_t = remove_node_type && !allow_remove_node env a then REQUEST_FAIL
  else if a.c_t = set_event_horizon_type && env.eh_reconfig_rejected then
    REQUEST_FAIL
  else if a.c_t = force_config_type && env.dead_nodes_in_new_config then
    REQUEST_FAIL
  else REQUEST_OK

/-! ## Theorems -/

theorem finished_last_modified (p : PaxMachine) (now : ℚ) :
    finished {p with last_modified := now} = finished p := rfl

/-- C10: inserting a synod into the delay FIFO while it already holds
`FIFO_SIZE` (1000) entries leaves the FIFO completely unchanged — the entry
is silently dropped and the count and contents (hence the extraction order)
of the existing entries are untouched. -/
theorem fifo_insert_full_unchanged (s : SynodeNo) (f : DelayFifo)
    (h : FIFO_SIZE ≤ f.n) : fifo_insert s f = f := by
  unfold fifo_insert fifo_full
  simp [ge_iff_le, h]

theorem fifo_insert_full_unchanged_witness :
    fifo_insert null_synode ⟨1000, 0, 0, fun _ => null_synode⟩ =
      ⟨1000, 0, 0, fun _ => null_synode⟩ :=
  fifo_insert_full_unchanged null_synode ⟨1000, 0, 0, fun _ => null_synode⟩
    (by decide)

/-- C8: for any signed 32-bit `proposer.bal.cnt` (including -1), the force
bump on the forcing node adds exactly `(INT32_MAX - max(cnt, 0)) / 3`, the
result stays within signed 32-bit range, and a machine already marked as
enforcer is not bumped again. -/
theorem force_pax_machine_bump (p : PaxMachine) (enforcer : Bool)
    (hlo : -2 ^ 31 ≤ p.proposer.bal.cnt) (hhi : p.proposer.bal.cnt ≤ 2 ^ 31 - 1) :
    (p.enforcer = false → enforcer = true →
      (force_pax_machine p enforcer).proposer.bal.cnt =
        p.proposer.bal.cnt + (INT32_MAX - max p.proposer.bal.cnt 0) / 3 ∧
      -2 ^ 31 ≤ (force_pax_machine p enforcer).proposer.bal.cnt ∧
      (force_pax_machine p enforcer).proposer.bal.cnt ≤ 2 ^ 31 - 1) ∧
    (p.enforcer = true →
      (force_pax_machine p enforcer).proposer.bal.cnt = p.proposer.bal.cnt) := by
  constructor
  · intro he hf
    subst hf
    unfold force_pax_machine INT32_MAX
    simp [he]
    rcases le_or_lt p.proposer.bal.cnt 0 with hc | hc
    · rw [max_eq_right hc]
      omega
    · rw [max_eq_left (le_of_lt hc)]
      omega
  · intro he
    unfold force_pax_machine
    simp [he]

theorem force_pax_machine_bump_witness :
    ((-1 : Int) ≥ -2 ^ 31) ∧
    (force_pax_machine
        ⟨⟨0, 0, 0⟩, ⟨⟨0, 0⟩, none⟩, ⟨⟨-1, 0⟩, none, ∅, ∅, ⟨0, 0⟩, ⟨0, 0⟩⟩,
         ⟨none⟩, initial_op, false, false, 0⟩ true).proposer.bal.cnt =
      -1 + (INT32_MAX - max (-1) 0) / 3 :=
  ⟨by decide,
   ((force_pax_machine_bump
      ⟨⟨0, 0, 0⟩, ⟨⟨0, 0⟩, none⟩, ⟨⟨-1, 0⟩, none, ∅, ∅, ⟨0, 0⟩, ⟨0, 0⟩⟩,
       ⟨none⟩, initial_op, false, false, 0⟩ true (by norm_num) (by norm_num)).1
      rfl rfl).1⟩

/-- C3: no message-handling operation (prepare, accept, learn, skip) ever
replaces `acceptor.promise` with a smaller ballot. -/
theorem acceptor_promise_monotone (now : ℚ) (p : PaxMachine) (pm m : PaxMsg)
    (s : SynodeNo) (skip_flag : Bool) :
    ballot_le p.acceptor.promise
      (handle_simple_prepare now p pm s).1.acceptor.promise ∧
    ballot_le p.acceptor.promise
      (handle_simple_accept now p m s skip_flag).1.acceptor.promise ∧
    ballot_le p.acceptor.promise (handle_learn now p m).acceptor.promise ∧
    ballot_le p.acceptor.promise (handle_skip now p m).acceptor.promise := by
  refine ⟨?_, ?_, ?_, ?_⟩
  · unfold handle_simple_prepare
    by_cases hf : finished p
    · simp [hf, ballot_le_refl]
    · simp only [hf, if_false]
      by_cases hg : gt_ballot pm.proposal p.acceptor.promise
      · simp [hg, gt_ballot_imp_le _ _ hg]
      · simp only [hg, Bool.false_or]
        by_cases hn : noop_match p pm
        · simp [hn, ballot_le_refl]
        · simp [hn, ballot_le_refl]
  · unfold handle_simple_accept
    by_cases hf : finished p
    · simp [hf, ballot_le_refl]
    · by_cases hc : !gt_ballot p.acceptor.promise m.proposal || noop_match p m
      · simp [hf, hc, ballot_le_refl]
      · simp [hf, hc, ballot_le_refl]
  · unfold handle_learn do_learn
    by_cases hf : finished {p with last_modified := now}
    · simp [hf, ballot_le_refl]
    · simp [hf, ballot_le_refl]
  · unfold handle_skip do_learn
    by_cases hf : finished p
    · simp [hf, ballot_le_refl]
    · simp [hf, ballot_le_refl]

/-- C2: once `learner.msg` is set (the machine is finished), a subsequent
learn, tiny-learn, skip or ack-prepare leaves `learner.msg` — and hence its
`(ballot, value)` — unchanged. -/
theorem learner_msg_immutable (now : ℚ) (forced_config site : SiteDef)
    (p : PaxMachine) (m : PaxMsg) (h : finished p = true) :
    (handle_learn now p m).learner = p.learner ∧
    (handle_tiny_learn now p m).learner = p.learner ∧
    (handle_skip now p m).learner = p.learner ∧
    (handle_ack_prepare forced_config site p m).1.learner = p.learner := by
  have hl : ∀ (p1 : PaxMachine), finished p1 = true →
      (handle_learn now p1 m).learner = p1.learner := by
    intro p1 h1
    unfold handle_learn
    simp [finished_last_modified, h1]
  refine ⟨hl p h, ?_, ?_, ?_⟩
  · unfold handle_tiny_learn
    cases ham : p.acceptor.msg with
    | none => rfl
    | some am =>
        by_cases he : eq_ballot am.proposal m.proposal
        · simp only [he, if_true]
          unfold handle_learn
          have : finished {p with
              acceptor := {p.acceptor with msg := some {am with op := learn_op}},
              last_modified := now} = finished p := rfl
          simp [finished_last_modified, this, h]
        · simp [he]
  · unfold handle_skip
    simp [h]
  · unfold handle_ack_prepare
    simp [h]

theorem learner_msg_immutable_witness :
    finished
      ⟨⟨0, 1, 0⟩, ⟨⟨0, 0⟩, none⟩, ⟨⟨0, 0⟩, none, ∅, ∅, ⟨0, 0⟩, ⟨0, 0⟩⟩,
       ⟨some ⟨some 0, learn_op, ⟨0, 1, 0⟩, ⟨1, 0⟩, ⟨0, 0⟩, normal, none, false⟩⟩,
       learn_op, false, false, 0⟩ = true ∧
    (handle_skip 7
      ⟨⟨0, 1, 0⟩, ⟨⟨0, 0⟩, none⟩, ⟨⟨0, 0⟩, none, ∅, ∅, ⟨0, 0⟩, ⟨0, 0⟩⟩,
       ⟨some ⟨some 0, learn_op, ⟨0, 1, 0⟩, ⟨1, 0⟩, ⟨0, 0⟩, normal, none, false⟩⟩,
       learn_op, false, false, 0⟩
      ⟨some 1, skip_op, ⟨0, 1, 0⟩, ⟨2, 1⟩, ⟨0, 0⟩, no_op, none, false⟩).learner =
      ⟨some ⟨some 0, learn_op, ⟨0, 1, 0⟩, ⟨1, 0⟩, ⟨0, 0⟩, normal, none, false⟩⟩ :=
  ⟨by decide,
   (learner_msg_immutable 7
      ⟨⟨0, 0, 0⟩, ⟨0, 0, 0⟩, none, [], 10⟩ ⟨⟨0, 0, 0⟩, ⟨0, 0, 0⟩, none, [], 10⟩
      ⟨⟨0, 1, 0⟩, ⟨⟨0, 0⟩, none⟩, ⟨⟨0, 0⟩, none, ∅, ∅, ⟨0, 0⟩, ⟨0, 0⟩⟩,
       ⟨some ⟨some 0, learn_op, ⟨0, 1, 0⟩, ⟨1, 0⟩, ⟨0, 0⟩, normal, none, false⟩⟩,
       learn_op, false, false, 0⟩
      ⟨some 1, skip_op, ⟨0, 1, 0⟩, ⟨2, 1⟩, ⟨0, 0⟩, no_op, none, false⟩
      (by decide)).2.2.1⟩

/-- C1, counterexample to the claim as stated: when the incoming ballot is
NOT greater than the promise but the no_op match applies, the handler does
reply `ack_prepare`, yet it leaves `acceptor.promise` untouched instead of
setting it to the ballot of the message. -/
theorem prepare_noop_keeps_promise :
    finished
      ⟨⟨0, 1, 0⟩, ⟨⟨5, 0⟩,
        some ⟨some 0, accept_op, ⟨0, 1, 0⟩, ⟨4, 0⟩, ⟨0, 0⟩, no_op, none, false⟩⟩,
       ⟨⟨0, 0⟩, none, ∅, ∅, ⟨0, 0⟩, ⟨0, 0⟩⟩, ⟨none⟩, initial_op, false, false, 0⟩ =
      false ∧
    gt_ballot (⟨3, 1⟩ : Ballot) (⟨5, 0⟩ : Ballot) = false ∧
    noop_match
      ⟨⟨0, 1, 0⟩, ⟨⟨5, 0⟩,
        some ⟨some 0, accept_op, ⟨0, 1, 0⟩, ⟨4, 0⟩, ⟨0, 0⟩, no_op, none, false⟩⟩,
       ⟨⟨0, 0⟩, none, ∅, ∅, ⟨0, 0⟩, ⟨0, 0⟩⟩, ⟨none⟩, initial_op, false, false, 0⟩
      ⟨some 1, prepare_op, ⟨0, 1, 0⟩, ⟨3, 1⟩, ⟨0, 0⟩, no_op, none, false⟩ = true ∧
    (handle_simple_prepare 0
      ⟨⟨0, 1, 0⟩, ⟨⟨5, 0⟩,
        some ⟨some 0, accept_op, ⟨0, 1, 0⟩, ⟨4, 0⟩, ⟨0, 0⟩, no_op, none, false⟩⟩,
       ⟨⟨0, 0⟩, none, ∅, ∅, ⟨0, 0⟩, ⟨0, 0⟩⟩, ⟨none⟩, initial_op, false, false, 0⟩
      ⟨some 1, prepare_op, ⟨0, 1, 0⟩, ⟨3, 1⟩, ⟨0, 0⟩, no_op, none, false⟩
      ⟨0, 1, 0⟩).2.isSome = true ∧
    (handle_simple_prepare 0
      ⟨⟨0, 1, 0⟩, ⟨⟨5, 0⟩,
        some ⟨some 0, accept_op, ⟨0, 1, 0⟩, ⟨4, 0⟩, ⟨0, 0⟩, no_op, none, false⟩⟩,
       ⟨⟨0, 0⟩, none, ∅, ∅, ⟨0, 0⟩, ⟨0, 0⟩⟩, ⟨none⟩, initial_op, false, false, 0⟩
      ⟨some 1, prepare_op, ⟨0, 1, 0⟩, ⟨3, 1⟩, ⟨0, 0⟩, no_op, none, false⟩
      ⟨0, 1, 0⟩).1.acceptor.promise ≠ (⟨3, 1⟩ : Ballot) := by
  refine ⟨by decide, by decide, by decide, by decide, by decide⟩

/-- C1 (amended): if the machine has learned a value, `on_prepare` replies
with a learn message carrying the learned value; otherwise, when the
incoming ballot is greater than the promise the promise is updated to it and
an ack is sent, when only the no_op match applies the ack is sent but the
promise is left unchanged, and in every other case no reply is produced.
The ack carries the currently accepted `(ballot, value)` when one exists and
is `ack_prepare_empty` otherwise. -/
theorem handle_simple_prepare_characterization (now : ℚ) (p : PaxMachine)
    (pm : PaxMsg) (s : SynodeNo) :
    (finished p = true →
      handle_simple_prepare now p pm s =
        (p, some (create_learn_msg_for_ignorant_node p pm s))) ∧
    (finished p = false → gt_ballot pm.proposal p.acceptor.promise = true →
      (handle_simple_prepare now p pm s).1 =
        {p with last_modified := now,
                acceptor := {p.acceptor with promise := pm.proposal}} ∧
      (handle_simple_prepare now p pm s).2 =
        some (create_ack_prepare_msg p pm s)) ∧
    (finished p = false → gt_ballot pm.proposal p.acceptor.promise = false →
      noop_match p pm = true →
      (handle_simple_prepare now p pm s).1 = {p with last_modified := now} ∧
      (handle_simple_prepare now p pm s).2 =
        some (create_ack_prepare_msg p pm s)) ∧
    (finished p = false → gt_ballot pm.proposal p.acceptor.promise = false →
      noop_match p pm = false →
      handle_simple_prepare now p pm s = (p, none)) ∧
    (∀ am, p.acceptor.msg = some am → am.op ≠ initial_op →
      create_ack_prepare_msg p pm s =
        {pm with synode := s, proposal := am.proposal, msg_type := am.msg_type,
                 op := ack_prepare_op, a := am.a}) ∧
    (accepted p = false →
      create_ack_prepare_msg p pm s = {pm with synode := s, op := ack_prepare_empty_op}) := by
  refine ⟨?_, ?_, ?_, ?_, ?_, ?_⟩
  · intro hf
    unfold handle_simple_prepare
    simp [hf]
  · intro hf hg
    unfold handle_simple_prepare
    simp only [hf, Bool.false_eq_true, if_false, hg, Bool.true_or, if_true]
    exact ⟨trivial, rfl⟩
  · intro hf hg hn
    unfold handle_simple_prepare
    simp only [hf, Bool.false_eq_true, if_false, hg, hn, Bool.false_or, if_true]
    exact ⟨trivial, rfl⟩
  · intro hf hg hn
    unfold handle_simple_prepare
    simp [hf, hg, hn]
  · intro am ham hop
    unfold create_ack_prepare_msg
    rw [ham]
    simp [hop]
  · intro hacc
    unfold create_ack_prepare_msg
    unfold accepted at hacc
    cases ham : p.acceptor.msg with
    | none => rfl
    | some am =>
        rw [ham] at hacc
        simp only [decide_eq_false_iff_not, Decidable.not_not] at hacc
        simp [hacc]

theorem handle_simple_prepare_characterization_witness :
    finished
      ⟨⟨0, 1, 0⟩, ⟨⟨0, 0⟩, none⟩, ⟨⟨0, 0⟩, none, ∅, ∅, ⟨0, 0⟩, ⟨0, 0⟩⟩,
       ⟨some ⟨some 0, learn_op, ⟨0, 1, 0⟩, ⟨1, 0⟩, ⟨0, 0⟩, normal, none, false⟩⟩,
       learn_op, false, false, 0⟩ = true ∧
    handle_simple_prepare 3
      ⟨⟨0, 1, 0⟩, ⟨⟨0, 0⟩, none⟩, ⟨⟨0, 0⟩, none, ∅, ∅, ⟨0, 0⟩, ⟨0, 0⟩⟩,
       ⟨some ⟨some 0, learn_op, ⟨0, 1, 0⟩, ⟨1, 0⟩, ⟨0, 0⟩, normal, none, false⟩⟩,
       learn_op, false, false, 0⟩
      ⟨some 1, prepare_op, ⟨0, 1, 0⟩, ⟨2, 1⟩, ⟨0, 0⟩, normal, none, false⟩ ⟨0, 1, 0⟩ =
      (⟨⟨0, 1, 0⟩, ⟨⟨0, 0⟩, none⟩, ⟨⟨0, 0⟩, none, ∅, ∅, ⟨0, 0⟩, ⟨0, 0⟩⟩,
        ⟨some ⟨some 0, learn_op, ⟨0, 1, 0⟩, ⟨1, 0⟩, ⟨0, 0⟩, normal, none, false⟩⟩,
        learn_op, false, false, 0⟩,
       some (create_learn_msg_for_ignorant_node
        ⟨⟨0, 1, 0⟩, ⟨⟨0, 0⟩, none⟩, ⟨⟨0, 0⟩, none, ∅, ∅, ⟨0, 0⟩, ⟨0, 0⟩⟩,
         ⟨some ⟨some 0, learn_op, ⟨0, 1, 0⟩, ⟨1, 0⟩, ⟨0, 0⟩, normal, none, false⟩⟩,
         learn_op, false, false, 0⟩
        ⟨some 1, prepare_op, ⟨0, 1, 0⟩, ⟨2, 1⟩, ⟨0, 0⟩, normal, none, false⟩
        ⟨0, 1, 0⟩)) :=
  ⟨by decide,
   (handle_simple_prepare_characterization 3
      ⟨⟨0, 1, 0⟩, ⟨⟨0, 0⟩, none⟩, ⟨⟨0, 0⟩, none, ∅, ∅, ⟨0, 0⟩, ⟨0, 0⟩⟩,
       ⟨some ⟨some 0, learn_op, ⟨0, 1, 0⟩, ⟨1, 0⟩, ⟨0, 0⟩, normal, none, false⟩⟩,
       learn_op, false, false, 0⟩
      ⟨some 1, prepare_op, ⟨0, 1, 0⟩, ⟨2, 1⟩, ⟨0, 0⟩, normal, none, false⟩
      ⟨0, 1, 0⟩).1 (by decide)⟩

/-- The force-mode majority test as claim C4 words it: count only the
answers from nodes present in the forced configuration (given by their
member indices) and require all of them. -/
def majority_force_claimed (nodeset : Finset Nat) (forced_members : Finset Nat) : Bool :=
  decide ((forced_members.filter (fun i => i ∈ nodeset)).card = forced_members.card)

/-- C4, counterexample to the claim as stated: with the active site holding
three members all of which answered and a forced configuration of two nodes,
the claimed rule (ignore answers from nodes outside the forced config, then
require all of it) accepts, but the source counts every answer of the active
site and compares with `|forced_config.nodes|`, so it rejects. -/
theorem majority_force_counterexample :
    majority ({0, 1, 2} : Finset Nat)
      ⟨⟨0, 0, 0⟩, ⟨0, 0, 0⟩, some 0, [10, 11, 12], 10⟩ false false true
      ⟨⟨0, 0, 0⟩, ⟨0, 0, 0⟩, some 0, [10, 11], 10⟩ = false ∧
    majority_force_claimed ({0, 1, 2} : Finset Nat) ({0, 1} : Finset Nat) = true := by
  refine ⟨by decide, by decide⟩

/-- C4 (amended): writing `ok` for the number of answered nodes among the
member indices of the active site, the majority test holds exactly when
`ok > N / 2`; under `cons_all` exactly when `ok = N`; and under force mode
exactly when `ok` equals the number of nodes of `forced_config` — the count
itself is still taken over the active site, answers from nodes outside the
forced configuration are NOT ignored. -/
theorem majority_characterization (nodeset : Finset Nat) (s : SiteDef)
    (all delay : Bool) (forced_config : SiteDef) :
    (majority nodeset s false delay false forced_config =
      decide (get_maxnodes s / 2 <
        ((Finset.range (get_maxnodes s)).filter (fun i => i ∈ nodeset)).card)) ∧
    (majority nodeset s true delay false forced_config =
      decide (((Finset.range (get_maxnodes s)).filter (fun i => i ∈ nodeset)).card =
        get_maxnodes s)) ∧
    (majority nodeset s all delay true forced_config =
      decide (((Finset.range (get_maxnodes s)).filter (fun i => i ∈ nodeset)).card =
        get_maxnodes forced_config)) := by
  refine ⟨rfl, rfl, ?_⟩
  unfold majority max_check
  simp

/-- C5: outside a pending event-horizon reconfiguration, `too_far` drops `s`
exactly when `s.msgno ≥ executed_msg.msgno + H(active)`; with a pending
reconfiguration `R` (which starts strictly after the active config, so the
active config is not the latest), the threshold becomes the minimum of
`executed_msg.msgno + H(active)` and `start(R).msgno - 1 + H(R)`, and `s` is
dropped exactly when `s.msgno` is not below that minimum.  The hypotheses
rule out `uint64_t` wrap-around of the thresholds. -/
theorem too_far_characterization (executed_msgno : Nat) (ac pc : SiteDef)
    (lat : Bool) (s : SynodeNo)
    (hac : executed_msgno + ac.event_horizon < 2 ^ 64)
    (hpc1 : 1 ≤ pc.start.msgno)
    (hpc2 : pc.start.msgno + pc.event_horizon ≤ 2 ^ 64) :
    too_far executed_msgno (some ac) lat none s =
      decide (executed_msgno + ac.event_horizon ≤ s.msgno) ∧
    too_far executed_msgno (some ac) false (some pc) s =
      decide
        (min (executed_msgno + ac.event_horizon)
          (pc.start.msgno - 1 + pc.event_horizon) ≤ s.msgno) := by
  have h1 : (executed_msgno + ac.event_horizon) % 2 ^ 64 =
      executed_msgno + ac.event_horizon := Nat.mod_eq_of_lt hac
  have h2 : (pc.start.msgno + (2 ^ 64 - 1) + pc.event_horizon) % 2 ^ 64 =
      pc.start.msgno - 1 + pc.event_horizon := by omega
  constructor
  · cases lat <;> simp only [too_far, too_far_threshold, h1, ge_iff_le]
  · simp only [too_far, too_far_threshold_new_event_horizon_pending, h1, h2,
      ge_iff_le]

theorem too_far_characterization_witness :
    too_far 5
      (some ⟨⟨0, 0, 0⟩, ⟨0, 0, 0⟩, some 0, [10, 11, 12], 10⟩) true none
      ⟨0, 15, 0⟩ = decide ((5 + 10 : Nat) ≤ 15) ∧
    too_far 5
      (some ⟨⟨0, 0, 0⟩, ⟨0, 0, 0⟩, some 0, [10, 11, 12], 10⟩) false
      (some ⟨⟨0, 9, 0⟩, ⟨0, 0, 0⟩, some 0, [10, 11, 12], 2⟩)
      ⟨0, 11, 0⟩ = decide (min (5 + 10) (9 - 1 + 2) ≤ 11) :=
  too_far_characterization 5
    ⟨⟨0, 0, 0⟩, ⟨0, 0, 0⟩, some 0, [10, 11, 12], 10⟩
    ⟨⟨0, 9, 0⟩, ⟨0, 0, 0⟩, some 0, [10, 11, 12], 2⟩ true ⟨0, 15, 0⟩
    (by norm_num) (by norm_num) (by norm_num) |>.imp id
    (fun h => by simpa using
      (too_far_characterization 5
        ⟨⟨0, 0, 0⟩, ⟨0, 0, 0⟩, some 0, [10, 11, 12], 10⟩
        ⟨⟨0, 9, 0⟩, ⟨0, 0, 0⟩, some 0, [10, 11, 12], 2⟩ true ⟨0, 11, 0⟩
        (by norm_num) (by norm_num) (by norm_num)).2)

theorem synode_lt_false_iff (a b : SynodeNo) :
    synode_lt a b = false ↔ synode_le b a := by
  unfold synode_lt synode_le
  simp only [Bool.or_eq_false_iff, Bool.and_eq_false_iff, decide_eq_false_iff_not,
    not_lt]
  omega

/-- C6: when the executor learns a configuration that does not contain the
local node, `setup_exit_handling` sets the delivery limit to the start of the new
configuration and the exit synode to that start plus its event horizon; an
empty configuration additionally gets its start inflated by a second event
horizon (start plus twice the horizon); the
exit flag is armed, and `x_check_exit` then fires exactly when both
`executed_msg ≥ exit_synode` and `delivered_msg ≥ delivery_limit`. -/
theorem setup_exit_handling_removed (nodeno_at maxnodes_at : SynodeNo → Nat)
    (st : ExecState) (hmem : st.site.nodeno = none)
    (h1 : st.site.start.msgno + st.site.event_horizon < 2 ^ 64)
    (h2 : st.site.start.msgno + 2 * st.site.event_horizon < 2 ^ 64) :
    (setup_exit_handling nodeno_at maxnodes_at st).delivery_limit =
      st.site.start ∧
    (setup_exit_handling nodeno_at maxnodes_at st).exit_synode =
      {st.site.start with msgno := st.site.start.msgno + st.site.event_horizon} ∧
    (st.site.nodes = [] →
      (setup_exit_handling nodeno_at maxnodes_at st).site.start =
        {st.site.start with
          msgno := st.site.start.msgno + 2 * st.site.event_horizon}) ∧
    (st.site.nodes ≠ [] →
      (setup_exit_handling nodeno_at maxnodes_at st).site.start =
        st.site.start) ∧
    (setup_exit_handling nodeno_at maxnodes_at st).exit_flag = true ∧
    (∀ executed_msg delivered_msg : SynodeNo,
      x_check_exit (setup_exit_handling nodeno_at maxnodes_at st)
          executed_msg delivered_msg = true ↔
        (synode_le (setup_exit_handling nodeno_at maxnodes_at st).exit_synode
            executed_msg ∧
         synode_le (setup_exit_handling nodeno_at maxnodes_at st).delivery_limit
            delivered_msg)) := by
  have hmod1 : (st.site.start.msgno + st.site.event_horizon) % 2 ^ 64 =
      st.site.start.msgno + st.site.event_horizon := Nat.mod_eq_of_lt h1
  have hmod2 :
      ((st.site.start.msgno + st.site.event_horizon) % 2 ^ 64 +
        st.site.event_horizon) % 2 ^ 64 =
      st.site.start.msgno + 2 * st.site.event_horizon := by
    rw [hmod1]; omega
  have hfields :
      (setup_exit_handling nodeno_at maxnodes_at st).delivery_limit =
        st.site.start ∧
      (setup_exit_handling nodeno_at maxnodes_at st).exit_synode =
        compute_delay st.site.start st.site.event_horizon ∧
      (st.site.nodes = [] →
        (setup_exit_handling nodeno_at maxnodes_at st).site.start =
          compute_delay (compute_delay st.site.start st.site.event_horizon)
            st.site.event_horizon) ∧
      (st.site.nodes ≠ [] →
        (setup_exit_handling nodeno_at maxnodes_at st).site.start =
          st.site.start) ∧
      (setup_exit_handling nodeno_at maxnodes_at st).exit_flag = true := by
    unfold setup_exit_handling setup_exit_tail is_member is_empty_site
    rw [hmem]
    by_cases hemp : st.site.nodes.length = 0
    · simp only [Option.isSome_none, Bool.false_eq_true, if_false, hemp]
      norm_num
      split <;> (split <;> simp_all [List.length_eq_zero])
    · simp only [Option.isSome_none, Bool.false_eq_true, if_false, hemp]
      norm_num [hemp]
      split <;> (split <;> simp_all [List.length_eq_zero])
  obtain ⟨hd, he, hs1, hs2, hf⟩ := hfields
  refine ⟨hd, ?_, ?_, hs2, hf, ?_⟩
  · rw [he]; unfold compute_delay; rw [hmod1]
  · intro hnil
    rw [hs1 hnil]; unfold compute_delay
    simp only [hmod2]
  · intro ex dv
    unfold x_check_exit
    rw [hf]
    simp only [Bool.true_and, Bool.and_eq_true, Bool.not_eq_eq_eq_not,
      Bool.not_true, synode_lt_false_iff]

theorem setup_exit_handling_removed_witness :
    (setup_exit_handling (fun _ => 0) (fun _ => 3)
      ⟨⟨0, 0, 0⟩, ⟨0, 0, 0⟩, false, 0,
       ⟨⟨2, 50, 0⟩, ⟨2, 39, 0⟩, none, [10, 11], 10⟩, ⟨2, 49, 0⟩,
       ⟨0, 0, 0, fun _ => null_synode⟩⟩).delivery_limit = ⟨2, 50, 0⟩ ∧
    (setup_exit_handling (fun _ => 0) (fun _ => 3)
      ⟨⟨0, 0, 0⟩, ⟨0, 0, 0⟩, false, 0,
       ⟨⟨2, 50, 0⟩, ⟨2, 39, 0⟩, none, [10, 11], 10⟩, ⟨2, 49, 0⟩,
       ⟨0, 0, 0, fun _ => null_synode⟩⟩).exit_synode = ⟨2, 60, 0⟩ := by
  have h := setup_exit_handling_removed (fun _ => 0) (fun _ => 3)
    ⟨⟨0, 0, 0⟩, ⟨0, 0, 0⟩, false, 0,
     ⟨⟨2, 50, 0⟩, ⟨2, 39, 0⟩, none, [10, 11], 10⟩, ⟨2, 49, 0⟩,
     ⟨0, 0, 0, fun _ => null_synode⟩⟩ rfl (by norm_num) (by norm_num)
  exact ⟨h.1, h.2.1⟩

/-- C9, counterexample to the claim as stated: a booted node
(`executed_msg.msgno > 2`) whose own address is absent from both the current
and the active site definition accepts an add_node request that lists its
own address — the direct self-add check only runs while
`executed_msg.msgno ≤ 2`. -/
theorem cfg_selfadd_accepted_when_booted :
    add_node_adding_own_address
      ⟨3, 7, 1, [2], [2], false, false, true, [], false, false⟩
      ⟨0, add_node_type, cons_majority, false, [1], ⟨0, 0, 0⟩⟩ = true ∧
    can_execute_cfgchange
      ⟨3, 7, 1, [2], [2], false, false, true, [], false, false⟩
      ⟨0, add_node_type, cons_majority, false, [1], ⟨0, 0, 0⟩⟩ = REQUEST_OK ∧
    (REQUEST_OK ≠ REQUEST_FAIL) := by
  refine ⟨by decide, by decide, by decide⟩

/-- C9 (amended): an add_node request listing the own address of the local node
is rejected with `REQUEST_FAIL` while the node has not executed past
msgno 2 (direct self-add check), and, once booted, whenever the local
address is also present in the current or in the active site definition
(the already-present check).  A booted node whose address is in neither
site definition does not refuse the self-add. -/
theorem cfg_selfadd_rejected (env : CfgEnv) (a : AppData)
    (hct : a.c_t = add_node_type)
    (hown : node_exists env.identity a.nodes = true)
    (hcover : env.executed_msgno ≤ 2 ∨
      node_exists env.identity env.new_site_nodes = true ∨
      node_exists env.identity env.valid_site_nodes = true) :
    can_execute_cfgchange env a = REQUEST_FAIL := by
  by_cases hb : env.executed_msgno ≤ 2
  · unfold can_execute_cfgchange add_node_adding_own_address
    simp [hb, hown]
  · have hmem : node_exists env.identity env.new_site_nodes = true ∨
        node_exists env.identity env.valid_site_nodes = true := by
      rcases hcover with hc | hc | hc
      · exact absurd hc hb
      · exact Or.inl hc
      · exact Or.inr hc
    have hallow : allow_add_node env a = false := by
      unfold allow_add_node
      by_cases he : env.eh_reject
      · simp [he]
      · by_cases hi : env.ipv4_reject
        · simp [he, hi]
        · have hany : (a.nodes.any (fun n =>
              node_exists n env.new_site_nodes ||
                node_exists n env.valid_site_nodes)) = true := by
            refine List.any_eq_true.2 ⟨env.identity, ?_, ?_⟩
            · simpa [node_exists] using hown
            · rcases hmem with hc | hc <;> simp [hc]
          simp [he, hi, hany]
    unfold can_execute_cfgchange
    rw [if_neg hb]
    by_cases hg : (a.group_id ≠ 0 && a.group_id ≠ env.executed_group_id) = true
    · rw [if_pos hg]
    · rw [if_neg hg,
        if_pos (show (a.c_t = add_node_type && !allow_add_node env a) = true by
          rw [hct, hallow]; rfl)]

theorem cfg_selfadd_rejected_witness :
    node_exists 1 [1] = true ∧
    can_execute_cfgchange
      ⟨3, 7, 1, [1, 2], [2], false, false, true, [], false, false⟩
      ⟨0, add_node_type, cons_majority, false, [1], ⟨0, 0, 0⟩⟩ = REQUEST_FAIL :=
  ⟨by decide,
   cfg_selfadd_rejected
    ⟨3, 7, 1, [1, 2], [2], false, false, true, [], false, false⟩
    ⟨0, add_node_type, cons_majority, false, [1], ⟨0, 0, 0⟩⟩ rfl (by decide)
    (Or.inr (Or.inl (by decide)))⟩

theorem cap_loop_le (n : Nat) (m : ℚ) :
    ∀ r : ℚ, r ≤ m * (13 / 10) ^ n → cap_loop n m r ≤ m := by
  induction n with
  | zero => intro r h; simpa using h
  | succ n ih =>
      intro r h
      unfold cap_loop
      by_cases hlt : m < r
      · simp only [hlt, if_true]
        apply ih
        rw [div_le_iff₀ (by norm_num : (0 : ℚ) < 13 / 10)]
        calc r ≤ m * (13 / 10) ^ (n + 1) := h
          _ = m * (13 / 10) ^ n * (13 / 10) := by ring
      · simpa [hlt] using le_of_not_lt hlt

theorem cap_fuel_le (m r : ℚ) (hm : 0 < m) (hr : 0 ≤ r) :
    r ≤ m * (13 / 10) ^ cap_fuel m r := by
  have hx : (0 : ℚ) ≤ 10 * r / (3 * m) := by positivity
  have hceil : (10 * r / (3 * m)) ≤ ((⌈10 * r / (3 * m)⌉ : ℤ) : ℚ) := Int.le_ceil _
  have hnge : 10 * r / (3 * m) ≤ ((cap_fuel m r : ℕ) : ℚ) := by
    have h1 : ((⌈10 * r / (3 * m)⌉ : ℤ) : ℚ) ≤
        ((⌈10 * r / (3 * m)⌉.toNat : ℕ) : ℚ) := by
      exact_mod_cast Int.self_le_toNat _
    unfold cap_fuel
    push_cast
    linarith
  have hbern : (1 : ℚ) + (cap_fuel m r : ℚ) * (3 / 10) ≤ (13 / 10) ^ cap_fuel m r := by
    have h := one_add_mul_le_pow (by norm_num : (-2 : ℚ) ≤ 3 / 10) (cap_fuel m r)
    have h13 : (1 : ℚ) + 3 / 10 = 13 / 10 := by norm_num
    rwa [h13] at h
  have h3 : 10 * r ≤ ((cap_fuel m r : ℕ) : ℚ) * (3 * m) := by
    rw [div_le_iff₀ (by positivity : (0 : ℚ) < 3 * m)] at hnge
    exact hnge
  have h4 : m * ((1 : ℚ) + (cap_fuel m r : ℚ) * (3 / 10)) ≤
      m * (13 / 10) ^ cap_fuel m r :=
    mul_le_mul_of_nonneg_left hbern (le_of_lt hm)
  nlinarith [h3, h4, hm.le]

theorem cap_loop_id_of_le (n : Nat) (m r : ℚ) (h : r ≤ m) :
    cap_loop (n + 1) m r = r := by
  simp [cap_loop, not_lt.2 h]

/-- C7, counterexample to the claim as stated: for `site.max_rtt = 0.1` the
claimed first delay `max(site.max_rtt, 0.001) = 0.1`, but the source
computes `0.001 + site.max_rtt = 0.101` (the cap does not bite). -/
theorem wakeup_delay_first_counterexample :
    wakeup_delay (1 / 10) 0 ≠ max (1 / 10 : ℚ) (1 / 1000) := by
  have hle : (1 / 1000 + 1 / 10 : ℚ) ≤ wakeup_max_threshold (1 / 10) := by
    unfold wakeup_max_threshold
    norm_num
  have h : wakeup_delay (1 / 10) 0 = 1 / 1000 + 1 / 10 := by
    unfold wakeup_delay wakeup_delay_raw cap_fuel
    rw [if_pos rfl]
    exact cap_loop_id_of_le _ _ _ hle
  rw [h, max_eq_left (by norm_num : (1 / 1000 : ℚ) ≤ 1 / 10)]
  norm_num

/-- C7 (amended): the backoff cap is `min(0.5, max(0.005, 10·max_rtt))`;
the first delay is `0.001 + max_rtt` and each subsequent delay is the
previous one times 1.4, in both cases as long as the cap is respected; the
delay never exceeds the cap (values above it are repeatedly divided by 1.3);
and phase 1 is resent exactly when the machine is not finished and at least
3 seconds have elapsed since the last push. -/
theorem wakeup_delay_characterization (rtt old : ℚ) (hrtt : 0 ≤ rtt)
    (hold : 0 ≤ old) :
    wakeup_max_threshold rtt = min (1 / 2 : ℚ) (max (5 / 1000) (rtt * 10)) ∧
    (1 / 1000 + rtt ≤ wakeup_max_threshold rtt →
      wakeup_delay rtt 0 = 1 / 1000 + rtt) ∧
    (old ≠ 0 → old * (7 / 5) ≤ wakeup_max_threshold rtt →
      wakeup_delay rtt old = old * (7 / 5)) ∧
    wakeup_delay rtt old ≤ wakeup_max_threshold rtt ∧
    (∀ (is_fin : Bool) (delay start_push now : ℚ),
      (proposer_wait_step is_fin rtt delay start_push now).2.2 = true ↔
        (is_fin = false ∧ start_push + 3 ≤ now)) := by
  have hm : 0 < wakeup_max_threshold rtt := by
    unfold wakeup_max_threshold
    dsimp only
    split_ifs <;> linarith
  refine ⟨?_, ?_, ?_, ?_, ?_⟩
  · unfold wakeup_max_threshold
    dsimp only
    split_ifs with h1 h2 <;> (rw [max_def, min_def]; split_ifs <;> linarith)
  · intro h
    unfold wakeup_delay wakeup_delay_raw cap_fuel
    rw [if_pos rfl]
    exact cap_loop_id_of_le _ _ _ h
  · intro h0 h
    unfold wakeup_delay wakeup_delay_raw cap_fuel
    rw [if_neg h0]
    exact cap_loop_id_of_le _ _ _ h
  · have hraw : 0 ≤ wakeup_delay_raw rtt old := by
      unfold wakeup_delay_raw
      split_ifs
      · linarith
      · exact mul_nonneg hold (by norm_num)
    exact cap_loop_le _ _ _ (cap_fuel_le _ _ hm hraw)
  · intro is_fin delay start_push now
    unfold proposer_wait_step
    cases is_fin
    · dsimp only
      by_cases hc : start_push + 3 ≤ now
      · simp [hc]
      · simp [hc]
    · simp

theorem wakeup_delay_characterization_witness :
    ((0 : ℚ) ≤ 1 / 10) ∧ ((1 / 100 : ℚ) ≠ 0) ∧
    ((1 / 100 : ℚ) * (7 / 5) ≤ wakeup_max_threshold (1 / 10)) ∧
    wakeup_delay (1 / 10) (1 / 100) = (1 / 100) * (7 / 5) :=
  ⟨by norm_num, by norm_num,
   by unfold wakeup_max_threshold; norm_num,
   (wakeup_delay_characterization (1 / 10) (1 / 100) (by norm_num)
      (by norm_num)).2.2.1 (by norm_num)
      (by unfold wakeup_max_threshold; norm_num)⟩

end Xcom

